import Mathlib

/-!
Shallow embedding of `src/main.py` (the Comp.lex command-line chat client)
and verification of its specification claims.

Modelling conventions:
* Python strings are `String`; the handful of `str` methods the program uses
  (`lower`, `strip`, `startswith`, `split(maxsplit=1)`) are embedded as
  executable functions over `String.data`.  Whitespace is the Unicode
  whitespace set of `str.isspace`; decimal digits are the Unicode
  category-Nd set (both taken from the CPython tables).  Case mapping
  (`lower`) is ASCII, which is inessential here because its results are
  only ever compared against ASCII keywords.
* Python floats are `ℚ`; `float(arg)` is embedded as a parser for sign,
  Unicode decimal digits with PEP 515 digit-group underscores, optional
  fraction dot and optional exponent.  The special spellings `inf`,
  `infinity` and `nan` are folded into a parse failure; see `pyFloat` for
  why every theorem proved over that folding also holds of the program.
* Python lists are mutable objects; history aliasing between the session
  object and the configuration dict is semantically relevant, so lists of
  messages live in an explicit heap of addresses and both the session and
  the configuration hold addresses into it.
* Console output, disk writes (`save_config`), remote-context creation and
  streaming requests are recorded as an event trace.  A `save` event records
  the full document passed to `save_config`, with its history dereferenced,
  which is exactly what `json.dump` serialises.
* The remote API is an oracle: each chat turn is driven by a `TurnResult`
  saying whether the stream completed (with which chunk texts), raised an
  API error, or raised an unexpected error.
-/

namespace CompLex

/-- One history entry: a Python dict with a role field and a text field. -/
structure Message where
  role : String
  text : String
deriving DecidableEq, Repr

/-- Python `str.lower` (ASCII case mapping; the results are only compared
against ASCII keywords). -/
def pyLower (s : String) : String := ⟨s.data.map Char.toLower⟩

/-- The whitespace set of Python `str.isspace`, which is what `str.strip()`
and `str.split()` remove and what `float()` tolerates around a literal:
ASCII controls 9-13 and 28-31, space, next line 0x85, no-break space 0xa0,
and the Unicode space separators. -/
def pyIsSpace (c : Char) : Bool :=
  let n := c.toNat
  decide ((9 ≤ n ∧ n ≤ 13) ∨ (28 ≤ n ∧ n ≤ 31) ∨ n = 32 ∨ n = 133 ∨ n = 160 ∨
    n = 0x1680 ∨ (0x2000 ≤ n ∧ n ≤ 0x200a) ∨ n = 0x2028 ∨ n = 0x2029 ∨
    n = 0x202f ∨ n = 0x205f ∨ n = 0x3000)

/-- Python `str.strip()`: drop leading and trailing whitespace. -/
def pyStrip (s : String) : String :=
  ⟨((s.data.dropWhile pyIsSpace).reverse.dropWhile pyIsSpace).reverse⟩

/-- Python `s.startswith(pre)`. -/
def pyStartsWith (s pre : String) : Bool := pre.data.isPrefixOf s.data

/-- Python `s.split(maxsplit=1)` (split on whitespace runs, at most once;
the remainder keeps its internal and trailing whitespace). -/
def pySplit1 (s : String) : List String :=
  let t := s.data.dropWhile pyIsSpace
  if t.isEmpty then []
  else
    let tok := t.takeWhile (fun c => !pyIsSpace c)
    let rest := (t.dropWhile (fun c => !pyIsSpace c)).dropWhile pyIsSpace
    if rest.isEmpty then [⟨tok⟩] else [⟨tok⟩, ⟨rest⟩]

/-- Start code points of the Unicode category-Nd blocks, each a run of ten
decimal digits with values 0-9 (generated from the CPython `unicodedata`
tables).  CPython float parsing maps every such digit to its ASCII value
before converting. -/
def ndRangeStarts : List Nat :=
  [0x30, 0x660, 0x6f0, 0x7c0, 0x966, 0x9e6, 0xa66, 0xae6, 0xb66, 0xbe6,
   0xc66, 0xce6, 0xd66, 0xde6, 0xe50, 0xed0, 0xf20, 0x1040, 0x1090, 0x17e0,
   0x1810, 0x1946, 0x19d0, 0x1a80, 0x1a90, 0x1b50, 0x1bb0, 0x1c40, 0x1c50,
   0xa620, 0xa8d0, 0xa900, 0xa9d0, 0xa9f0, 0xaa50, 0xabf0, 0xff10, 0x104a0,
   0x10d30, 0x11066, 0x110f0, 0x11136, 0x111d0, 0x112f0, 0x11450, 0x114d0,
   0x11650, 0x116c0, 0x11730, 0x118e0, 0x11950, 0x11c50, 0x11d50, 0x11da0,
   0x16a60, 0x16ac0, 0x16b50, 0x1d7ce, 0x1d7d8, 0x1d7e2, 0x1d7ec, 0x1d7f6,
   0x1e140, 0x1e2f0, 0x1e950, 0x1fbf0]

/-- Decimal value of a Unicode category-Nd digit, `none` otherwise. -/
def pyDigitVal? (c : Char) : Option Nat :=
  ndRangeStarts.findSome? fun b =>
    if b ≤ c.toNat ∧ c.toNat ≤ b + 9 then some (c.toNat - b) else none

/-- Python `str.isdigit` restricted to category Nd, the digits `float()`
accepts. -/
def pyIsDigit (c : Char) : Bool := (pyDigitVal? c).isSome

/-- Numeric value of a digit string. -/
def digitsVal (cs : List Char) : Nat :=
  cs.foldl (fun a c => a * 10 + (pyDigitVal? c).getD 0) 0

def allDigits (cs : List Char) : Bool := cs.all pyIsDigit

/-- Mantissa of a Python float literal: `digits`, `digits.digits`,
`digits.` or `.digits` (at least one digit in total). -/
def parseMantissa (cs : List Char) : Option ℚ :=
  let ip := cs.takeWhile pyIsDigit
  let rest := cs.dropWhile pyIsDigit
  match rest with
  | [] => if ip.isEmpty then none else some (digitsVal ip : ℚ)
  | '.' :: fp =>
      if allDigits fp && !(ip.isEmpty && fp.isEmpty) then
        some ((digitsVal ip : ℚ) + (digitsVal fp : ℚ) / (10 : ℚ) ^ fp.length)
      else none
  | _ => none

/-- Exponent part after `e`/`E`: optional sign then digits. -/
def parseSignedNat (cs : List Char) : Option ℤ :=
  let p : ℤ × List Char :=
    match cs with
    | '-' :: r => (-1, r)
    | '+' :: r => (1, r)
    | _ => (1, cs)
  if !p.2.isEmpty && allDigits p.2 then some (p.1 * digitsVal p.2) else none

/-- PEP 515 digit-group underscores: an underscore is legal only directly
between two digits and is removed before parsing; any other underscore
makes the literal invalid (`0.5_5` parses, `1_.5` and `1__0` do not).
`prev` is the character directly before the current position. -/
def remUnderscores (prev : Option Char) : List Char → Option (List Char)
  | [] => some []
  | c :: rest =>
      if c = '_' then
        match prev, rest with
        | some p, n :: _ =>
            if pyIsDigit p && pyIsDigit n then remUnderscores (some c) rest
            else none
        | _, _ => none
      else
        (remUnderscores (some c) rest).map (c :: ·)

/-- Python `float(arg)` on decimal literals: strip Unicode whitespace,
remove digit-group underscores, then parse sign, Unicode decimal digits,
optional fraction dot, optional exponent.  The special spellings `inf`,
`infinity` and `nan` are folded into a parse failure: in the `/temp`
handler both the parse-failure branch and the out-of-range branch reject
the command, leave the temperature unchanged and print an error, and the
theorem about the parse-failure branch asserts only the disjunction of the
two error messages, so every assertion proved about the folded inputs also
holds of the program. -/
def pyFloat (s : String) : Option ℚ :=
  match remUnderscores none (pyStrip s).data with
  | none => none
  | some cs =>
      let p : ℚ × List Char :=
        match cs with
        | '-' :: r => (-1, r)
        | '+' :: r => (1, r)
        | _ => (1, cs)
      let mant := p.2.takeWhile (fun c => c != 'e' && c != 'E')
      let expPart := p.2.dropWhile (fun c => c != 'e' && c != 'E')
      match parseMantissa mant with
      | none => none
      | some m =>
          match expPart with
          | [] => some (p.1 * m)
          | _ :: r =>
              match parseSignedNat r with
              | none => none
              | some e => some (p.1 * m * (10 : ℚ) ^ e)

/-- Addresses of mutable Python list objects. -/
abbrev Addr := Nat

/-- Heap of mutable lists of messages; `next` is the next fresh address. -/
structure Heap where
  next : Nat
  mem : Addr → List Message

def heapEmpty : Heap := ⟨0, fun _ => []⟩

/-- Create a fresh list object. -/
def heapAlloc (h : Heap) (v : List Message) : Heap × Addr :=
  (⟨h.next + 1, fun a => if a = h.next then v else h.mem a⟩, h.next)

def heapRead (h : Heap) (a : Addr) : List Message := h.mem a

def heapWrite (h : Heap) (a : Addr) (v : List Message) : Heap :=
  ⟨h.next, fun b => if b = a then v else h.mem b⟩

/-- Python `list.append` on the list object at `a`. -/
def heapPush (h : Heap) (a : Addr) (m : Message) : Heap :=
  heapWrite h a (heapRead h a ++ [m])

/-- The configuration dict.  Fields are `none` when the corresponding key is
absent.  The `history` key holds a reference to a mutable list. -/
structure Config where
  api_key : Option String := none
  model : Option String := none
  temperature : Option ℚ := none
  system_instruction : Option String := none
  search_grounding : Option Bool := none
  historyRef : Option Addr := none
deriving DecidableEq, Repr

/-- The document as serialised by `json.dump`: the history reference is
dereferenced to its current list value. -/
structure SavedDoc where
  api_key : Option String
  model : Option String
  temperature : Option ℚ
  system_instruction : Option String
  search_grounding : Option Bool
  history : Option (List Message)
deriving DecidableEq, Repr

def configToSaved (h : Heap) (c : Config) : SavedDoc :=
  { api_key := c.api_key
    model := c.model
    temperature := c.temperature
    system_instruction := c.system_instruction
    search_grounding := c.search_grounding
    history := c.historyRef.map (heapRead h) }

/-- Observable actions: console prints, disk writes, remote-context
creation, and per-turn streaming requests (recording the model used). -/
inductive Event where
  | save (doc : SavedDoc)
  | print (msg : String)
  | rebuild
  | request (model : String)
deriving DecidableEq, Repr

def Event.isSave : Event → Bool
  | .save _ => true
  | _ => false

def saveDocs (evs : List Event) : List SavedDoc :=
  evs.filterMap fun e => match e with | .save d => some d | _ => none

def requestModels (evs : List Event) : List String :=
  evs.filterMap fun e => match e with | .request m => some m | _ => none

/-- `save_config(config)`: serialise and write the document (a write
failure is reported and never fatal, so the event records the attempt). -/
def save_config (h : Heap) (c : Config) : List Event :=
  [.save (configToSaved h c)]

/-- States of the configuration file when it exists: well-formed JSON,
decodable text that is not valid JSON, byte content that does not decode as
UTF-8, and a file the process may not open. -/
inductive FileContent where
  | wellFormed (d : SavedDoc)
  | malformed
  | undecodable
  | unreadable

/-- Exceptions the load path can raise. -/
inductive PyError where
  | jsonDecodeError
  | unicodeDecodeError
  | permissionError
deriving DecidableEq, Repr

/-- State of the configuration file. -/
inductive FileState where
  | absent
  | present (content : FileContent)

/-- `open(CONFIG_PATH)` followed by `json.load(f)`, the body of the try
block in `load_config`: well-formed content parses; decodable but malformed
text raises `json.JSONDecodeError`; undecodable bytes raise
`UnicodeDecodeError` while reading; an unreadable file raises
`PermissionError` at `open`. -/
def openAndParse : FileContent → Except PyError SavedDoc
  | .wellFormed d => .ok d
  | .malformed => .error .jsonDecodeError
  | .undecodable => .error .unicodeDecodeError
  | .unreadable => .error .permissionError

def corruptWarning : String := "Warning: Configuration file corrupted. Starting fresh."

/-- `load_config()`: an absent file gives an empty document; the except
clause catches exactly `json.JSONDecodeError` (warning, empty document) and
well-formed content is returned (its history list becomes a fresh in-memory
object); every other exception propagates out of the function. -/
def load_config (h : Heap) (fs : FileState) :
    Except PyError (Heap × Config × List Event) :=
  match fs with
  | .absent => .ok (h, {}, [])
  | .present content =>
      match openAndParse content with
      | .ok d =>
          match d.history with
          | none =>
              .ok (h, { api_key := d.api_key, model := d.model,
                        temperature := d.temperature,
                        system_instruction := d.system_instruction,
                        search_grounding := d.search_grounding,
                        historyRef := none }, [])
          | some l =>
              let pa := heapAlloc h l
              .ok (pa.1, { api_key := d.api_key, model := d.model,
                           temperature := d.temperature,
                           system_instruction := d.system_instruction,
                           search_grounding := d.search_grounding,
                           historyRef := some pa.2 }, [])
      | .error .jsonDecodeError => .ok (h, {}, [.print corruptWarning])
      | .error e => .error e

def invalidKeyMsg : String := "Invalid Key Format. Please ensure the key starts with AIza."
def keyAcceptedMsg : String := "API Key accepted and saved."
def welcomeMsg : String := "Welcome to Comp.lex Setup"

/-- The key is treated as invalid if absent, falsy (empty), or lacking the
`AIza` prefix (`if not api_key or not api_key.startswith("AIza")`). -/
def keyInvalid : Option String → Bool
  | none => true
  | some s => s == "" || !(pyStartsWith s "AIza")

/-- The onboarding prompt loop (`while True` in `get_api_key`), driven by
the finite list of lines the user enters; `none` means every entered line
was rejected and the loop is still prompting. -/
def promptLoop (h : Heap) (c : Config) : List String → Option String × Config × List Event
  | [] => (none, c, [])
  | i :: rest =>
      let key := pyStrip i
      if pyStartsWith key "AIza" then
        let c2 := { c with api_key := some key }
        (some key, c2, save_config h c2 ++ [.print keyAcceptedMsg])
      else
        let r := promptLoop h c rest
        (r.1, r.2.1, .print invalidKeyMsg :: r.2.2)

/-- `get_api_key(config)`. -/
def get_api_key (h : Heap) (c : Config) (inputs : List String) :
    Option String × Config × List Event :=
  if keyInvalid c.api_key then
    let r := promptLoop h c inputs
    (r.1, r.2.1, .print welcomeMsg :: r.2.2)
  else (c.api_key, c, [])

def DEFAULT_MODEL : String := "gemini-2.5-flash"
def LITE_MODEL : String := "gemini-2.5-flash-lite"
def defaultPersona : String := "You are a concise, helpful assistant named Comp.lex, specialized in technical advice, coding, and developer tasks. Format all code responses in markdown code blocks."
def defaultTemp : ℚ := 7/10

/-- The remote conversation context opened by `client.chats.create`. -/
structure ChatSession where
  model : String
  system_instruction : String
  temperature : ℚ
  tools_search : Bool
  history : List Message
deriving DecidableEq, Repr

/-- The `ComplexChat` session object.  `historyRef` is the address of the
mutable list bound to `self.history`; `config` is the configuration dict
(whose `history` key may or may not reference the same list). -/
structure Chat where
  config : Config
  api_key : Option String
  model_name : String
  temperature : ℚ
  system_instruction : String
  search_grounding : Bool
  historyRef : Addr
  client : Bool
  chat_session : Option ChatSession
deriving Repr

/-- `ComplexChat._create_new_chat`: no-op without a client; otherwise open a
fresh remote context from current settings and the current history list,
forcing the lite model while search grounding is on. -/
def _create_new_chat (h : Heap) (s : Chat) : Option ChatSession :=
  if s.client then
    some { model := if s.search_grounding then LITE_MODEL else s.model_name
           system_instruction := s.system_instruction
           temperature := s.temperature
           tools_search := s.search_grounding
           history := heapRead h s.historyRef }
  else none

/-- `ComplexChat.__init__`: read fields with defaults; `config.get("history",
[])` yields the document list object itself when the key is present, and a
fresh list (not stored into the dict) when absent. -/
def ComplexChat.mkInit (h : Heap) (config : Config) : Heap × Chat :=
  let pa : Heap × Addr :=
    match config.historyRef with
    | some r => (h, r)
    | none => heapAlloc h []
  let client :=
    match config.api_key with
    | some k => k != ""
    | none => false
  let s0 : Chat :=
    { config := config
      api_key := config.api_key
      model_name := config.model.getD DEFAULT_MODEL
      temperature := config.temperature.getD defaultTemp
      system_instruction := config.system_instruction.getD defaultPersona
      search_grounding := config.search_grounding.getD false
      historyRef := pa.2
      client := client
      chat_session := none }
  (pa.1, { s0 with chat_session := _create_new_chat pa.1 s0 })

def exitMsg : String := "Exiting Comp.lex. Goodbye!"
def helpMsg : String := "Available Commands"
def settingsMsg : String := "Current Settings"
def modelMissingMsg : String := "Error: Please specify a model name."
def modelUnknownMsg : String := "Error: not a recognized model name."
def modelChangedMsg : String := "Model changed. Chat restarted."
def tempSetMsg : String := "Temperature set. Chat restarted."
def tempRangeMsg : String := "Error: Temperature must be between 0.0 and 1.0."
def tempInvalidMsg : String := "Error: Invalid temperature value."
def personaMissingMsg : String := "Error: Please provide a persona prompt."
def personaSetMsg : String := "Persona updated. Chat restarted with new role."
def searchOnMsg : String := "Google Search Grounding ENABLED. The model will be temporarily set to gemini-2.5-flash-lite when search is enabled."
def searchOffMsg : String := "Google Search Grounding DISABLED. Using primary model for general knowledge."
def searchUsageMsg : String := "Error: Use /search on or /search off."
def historyClearedMsg : String := "Chat history cleared. Chat session restarted."
def historyUsageMsg : String := "Error: Use /history clear to clear the conversation history."
def unknownCmdMsg : String := "Unknown command. Use /help for a list of commands."
def apiErrorMsg : String := "API Error: A problem occurred while communicating with the Gemini API."
def unexpectedErrorMsg : String := "An unexpected error occurred"
def interruptMsg : String := "Exiting Comp.lex."

/-- Result of one command dispatch or one loop iteration: the boolean
returned by `process_command` (exit the loop), the updated heap and session
object, and the observable events in order. -/
structure CmdResult where
  exitLoop : Bool
  heap : Heap
  chat : Chat
  events : List Event

/-- The `model_map` shorthand dict in the `/model` handler. -/
def model_map (k : String) : Option String :=
  if k = "flash" then some "gemini-2.5-flash"
  else if k = "pro" then some "gemini-2.5-pro"
  else if k = "lite" then some "gemini-2.5-flash-lite"
  else none

/-- `model_map.get(arg.lower(), arg)`. -/
def resolveModel (arg : String) : String := (model_map (pyLower arg)).getD arg

/-- The `/model` branch of `process_command`. -/
def cmd_model (h : Heap) (s : Chat) (arg : String) : CmdResult :=
  if arg = "" then ⟨false, h, s, [.print modelMissingMsg]⟩
  else
    let new_model := resolveModel arg
    if pyStartsWith new_model "gemini" then
      let s1 := { s with model_name := new_model,
                         config := { s.config with model := some new_model } }
      ⟨false, h, { s1 with chat_session := _create_new_chat h s1 },
        [.rebuild, .print modelChangedMsg]⟩
    else ⟨false, h, s, [.print modelUnknownMsg]⟩

/-- The `/temp` branch of `process_command`. -/
def cmd_temp (h : Heap) (s : Chat) (arg : String) : CmdResult :=
  match pyFloat arg with
  | some temp =>
      if 0 ≤ temp ∧ temp ≤ 1 then
        let s1 := { s with temperature := temp,
                           config := { s.config with temperature := some temp } }
        ⟨false, h, { s1 with chat_session := _create_new_chat h s1 },
          [.rebuild, .print tempSetMsg]⟩
      else ⟨false, h, s, [.print tempRangeMsg]⟩
  | none => ⟨false, h, s, [.print tempInvalidMsg]⟩

/-- The `/persona` branch of `process_command`. -/
def cmd_persona (h : Heap) (s : Chat) (arg : String) : CmdResult :=
  if arg = "" then ⟨false, h, s, [.print personaMissingMsg]⟩
  else
    let s1 := { s with system_instruction := arg,
                       config := { s.config with system_instruction := some arg } }
    ⟨false, h, { s1 with chat_session := _create_new_chat h s1 },
      [.rebuild, .print personaSetMsg]⟩

/-- The `/search` branch of `process_command`: the flag update is guarded by
validation, but the dict write and the context rebuild happen
unconditionally after the branch. -/
def cmd_search (h : Heap) (s : Chat) (arg : String) : CmdResult :=
  let low := pyLower arg
  let p : Chat × List Event :=
    if low = "on" ∨ low = "true" then
      ({ s with search_grounding := true }, [Event.print searchOnMsg])
    else if low = "off" ∨ low = "false" then
      ({ s with search_grounding := false }, [Event.print searchOffMsg])
    else (s, [Event.print searchUsageMsg])
  let s2 := { p.1 with config := { p.1.config with search_grounding := some p.1.search_grounding } }
  ⟨false, h, { s2 with chat_session := _create_new_chat h s2 }, p.2 ++ [.rebuild]⟩

/-- The `/history` branch of `process_command`: `self.history = []` and
`self.config["history"] = []` create two distinct fresh list objects. -/
def cmd_history (h : Heap) (s : Chat) (arg : String) : CmdResult :=
  if pyLower arg = "clear" then
    let pa1 := heapAlloc h []
    let pa2 := heapAlloc pa1.1 []
    let s1 := { s with historyRef := pa1.2,
                       config := { s.config with historyRef := some pa2.2 } }
    ⟨false, pa2.1, { s1 with chat_session := _create_new_chat pa2.1 s1 },
      [.rebuild, .print historyClearedMsg]⟩
  else ⟨false, h, s, [.print historyUsageMsg]⟩

/-- The command dispatch chain of `ComplexChat.process_command`, after the
command token and trailing argument have been computed. -/
def process_command_core (h : Heap) (s : Chat) (command arg : String) : CmdResult :=
  if command = "/exit" ∨ command = "/quit" then ⟨true, h, s, [.print exitMsg]⟩
  else if command = "/help" then ⟨false, h, s, [.print helpMsg]⟩
  else if command = "/settings" then ⟨false, h, s, [.print settingsMsg]⟩
  else if command = "/model" then cmd_model h s arg
  else if command = "/temp" then cmd_temp h s arg
  else if command = "/persona" then cmd_persona h s arg
  else if command = "/search" then cmd_search h s arg
  else if command = "/history" then cmd_history h s arg
  else ⟨false, h, s, [.print unknownCmdMsg]⟩

/-- `ComplexChat.process_command`: split the line once, lowercase the
command token, take the remainder as the argument. -/
def process_command (h : Heap) (s : Chat) (user_input : String) : CmdResult :=
  let parts := pySplit1 user_input
  let command := pyLower (parts.headD "")
  let arg := parts.getD 1 ""
  process_command_core h s command arg

/-- Oracle outcome for one streamed exchange. -/
inductive TurnResult where
  | chunks (texts : List String)
  | apiError
  | unexpected
deriving DecidableEq, Repr

/-- One chat turn of the interactive loop (a non-command input): append the
user message, issue the streaming request with the effective model, and on a
completed stream with text append the model message, point the dict history
at the session list, and save. -/
def chatTurn (h : Heap) (s : Chat) (user_input : String) (tr : TurnResult) : CmdResult :=
  let h1 := heapPush h s.historyRef ⟨"user", user_input⟩
  let model_to_use := if s.search_grounding then LITE_MODEL else s.model_name
  match tr with
  | .apiError => ⟨false, h1, s, [.request model_to_use, .print apiErrorMsg]⟩
  | .unexpected => ⟨false, h1, s, [.request model_to_use, .print unexpectedErrorMsg]⟩
  | .chunks texts =>
      let full_response := String.join texts
      if full_response = "" then ⟨false, h1, s, [.request model_to_use]⟩
      else
        let h2 := heapPush h1 s.historyRef ⟨"model", full_response⟩
        let s1 := { s with config := { s.config with historyRef := some s.historyRef } }
        ⟨false, h2, s1, .request model_to_use :: save_config h2 s1.config⟩

/-- One line of driver input for the interactive loop. -/
inductive LoopInput where
  | line (raw : String) (tr : TurnResult)
  | interrupt
deriving Repr

/-- One iteration of `start_chat_loop`. -/
def loopStep (h : Heap) (s : Chat) : LoopInput → CmdResult
  | .interrupt => ⟨true, h, s, [.print interruptMsg]⟩
  | .line raw tr =>
      let user_input := pyStrip raw
      if user_input = "" then ⟨false, h, s, []⟩
      else if pyStartsWith user_input "/" then process_command h s user_input
      else chatTurn h s user_input tr

/-- `start_chat_loop`, driven by a finite list of inputs. -/
def runLoop (h : Heap) (s : Chat) : List LoopInput → Heap × Chat × List Event
  | [] => (h, s, [])
  | i :: rest =>
      let r := loopStep h s i
      if r.exitLoop then (r.heap, r.chat, r.events)
      else
        let out := runLoop r.heap r.chat rest
        (out.1, out.2.1, r.events ++ out.2.2)

/-- `main()`: load, onboard, construct the session, run the loop when a
client is open, and perform the final unconditional save.  Returns `none`
when no completed run exists: an exception escaping `load_config` kills the
process, and onboarding that consumes every input line never returns. -/
def mainRun (fs : FileState) (keys : List String) (inputs : List LoopInput) :
    Option (Heap × Chat × List Event) :=
  match load_config heapEmpty fs with
  | .error _ => none
  | .ok l =>
      let g := get_api_key l.1 l.2.1 keys
      match g.1 with
      | none => none
      | some _ =>
          let is := ComplexChat.mkInit l.1 g.2.1
          let out := if is.2.client then runLoop is.1 is.2 inputs else (is.1, is.2, [])
          some (out.1, out.2.1,
            l.2.2 ++ g.2.2 ++ out.2.2 ++ save_config out.1 out.2.1.config)

/-- Histories of the documents written to disk during a run, in order. -/
def savedHistories (evs : List Event) : List (Option (List Message)) :=
  (saveDocs evs).map SavedDoc.history

/-! ## Helper lemmas -/

theorem heapRead_push (h : Heap) (a : Addr) (m : Message) :
    heapRead (heapPush h a m) a = heapRead h a ++ [m] := by
  simp [heapPush, heapWrite, heapRead]

theorem process_command_parsed (h : Heap) (s : Chat) (input cmd arg : String)
    (hp : pySplit1 input = [cmd, arg]) :
    process_command h s input = process_command_core h s (pyLower cmd) arg := by
  unfold process_command
  rw [hp]
  rfl

theorem cmd_model_no_save (h : Heap) (s : Chat) (arg : String) :
    (cmd_model h s arg).events.filter Event.isSave = [] := by
  unfold cmd_model
  dsimp only
  repeat' split
  all_goals rfl

theorem cmd_temp_no_save (h : Heap) (s : Chat) (arg : String) :
    (cmd_temp h s arg).events.filter Event.isSave = [] := by
  unfold cmd_temp
  dsimp only
  repeat' split
  all_goals rfl

theorem cmd_persona_no_save (h : Heap) (s : Chat) (arg : String) :
    (cmd_persona h s arg).events.filter Event.isSave = [] := by
  unfold cmd_persona
  dsimp only
  repeat' split
  all_goals rfl

theorem cmd_search_no_save (h : Heap) (s : Chat) (arg : String) :
    (cmd_search h s arg).events.filter Event.isSave = [] := by
  unfold cmd_search
  dsimp only
  repeat' split
  all_goals rfl

theorem cmd_history_no_save (h : Heap) (s : Chat) (arg : String) :
    (cmd_history h s arg).events.filter Event.isSave = [] := by
  unfold cmd_history
  dsimp only
  repeat' split
  all_goals rfl

theorem core_no_save (h : Heap) (s : Chat) (command arg : String) :
    (process_command_core h s command arg).events.filter Event.isSave = [] := by
  unfold process_command_core
  repeat' split
  all_goals first
    | rfl
    | exact cmd_model_no_save h s arg
    | exact cmd_temp_no_save h s arg
    | exact cmd_persona_no_save h s arg
    | exact cmd_search_no_save h s arg
    | exact cmd_history_no_save h s arg

theorem pc_no_save (h : Heap) (s : Chat) (input : String) :
    (process_command h s input).events.filter Event.isSave = [] := by
  unfold process_command
  exact core_no_save h s _ _

theorem promptLoop_all_invalid (h : Heap) (c : Config) :
    ∀ inputs : List String, (∀ j ∈ inputs, pyStartsWith (pyStrip j) "AIza" = false) →
      promptLoop h c inputs = (none, c, inputs.map fun _ => Event.print invalidKeyMsg) := by
  intro inputs
  induction inputs with
  | nil => intro _; rfl
  | cons i rest ih =>
      intro hall
      have hi : pyStartsWith (pyStrip i) "AIza" = false := hall i (by simp)
      have hr := ih (fun j hj => hall j (by simp [hj]))
      unfold promptLoop
      dsimp only
      simp [hi, hr]

/-! ## Concrete fixtures for counterexamples and witnesses -/

/-- A fresh configuration holding only a valid key (no history key). -/
def cfgFresh : Config := { api_key := some "AIzaTest" }

def initFresh : Heap × Chat := ComplexChat.mkInit heapEmpty cfgFresh

/-- A configuration whose history key is present (referencing list 0). -/
def cfgWithHist : Config := { api_key := some "AIzaTest", historyRef := some 0 }

def initHist : Heap × Chat := ComplexChat.mkInit heapEmpty cfgWithHist

/-- On-disk file with a valid key and an (empty) history list, as after a
previous run of the program. -/
def fsHist : FileState :=
  .present (.wellFormed ⟨some "AIzaKey", none, none, none, none, some []⟩)

/-! ## Claim C1 -/

/-- Claim C1 counterexample: `/model pro` on a fresh session succeeds (the
model is updated in session state and in the configuration document, and the
remote context is rebuilt), yet the command emits no save: the configuration
is not persisted to disk when the command completes. -/
theorem c1_model_success_without_save :
    (process_command initFresh.1 initFresh.2 "/model pro").chat.model_name =
      "gemini-2.5-pro" ∧
    (process_command initFresh.1 initFresh.2 "/model pro").chat.config.model =
      some "gemini-2.5-pro" ∧
    Event.rebuild ∈ (process_command initFresh.1 initFresh.2 "/model pro").events ∧
    (process_command initFresh.1 initFresh.2 "/model pro").events.filter Event.isSave =
      [] := by
  refine ⟨by decide, by decide, by decide, by decide⟩

/-- Claim C1, amended: no slash command ever writes the configuration to
disk.  A successful settings-changing command (here shown for `/model`)
updates the in-memory session state and the in-memory configuration
document and rebuilds the remote context, but persistence happens only at a
later save: a successful exchange or the unconditional final save at exit. -/
theorem c1_settings_commands_no_disk_write (h : Heap) (s : Chat) (input : String) :
    (process_command h s input).events.filter Event.isSave = [] ∧
    (∀ arg, pySplit1 input = ["/model", arg] →
        pyStartsWith (resolveModel arg) "gemini" = true →
        Event.rebuild ∈ (process_command h s input).events ∧
        (process_command h s input).chat.config.model = some (resolveModel arg) ∧
        (process_command h s input).chat.model_name = resolveModel arg) := by
  refine ⟨pc_no_save h s input, ?_⟩
  intro arg hp hg
  rw [process_command_parsed h s input "/model" arg hp]
  rw [show pyLower "/model" = "/model" from rfl]
  rw [show process_command_core h s "/model" arg = cmd_model h s arg from rfl]
  unfold cmd_model
  by_cases ha : arg = ""
  · exact absurd hg (by subst ha; decide)
  · dsimp only
    simp [ha, hg]

theorem c1_settings_commands_no_disk_write_witness :
    (process_command initFresh.1 initFresh.2 "/model pro").events.filter Event.isSave =
      [] ∧
    Event.rebuild ∈ (process_command initFresh.1 initFresh.2 "/model pro").events ∧
    (process_command initFresh.1 initFresh.2 "/model pro").chat.config.model =
      some (resolveModel "pro") := by
  have t := c1_settings_commands_no_disk_write initFresh.1 initFresh.2 "/model pro"
  have t2 := t.2 "pro" (by decide) (by decide)
  exact ⟨t.1, t2.1, t2.2.1⟩

/-! ## Claim C2 -/

/-- Claim C2 counterexample: start from a stored document that has a history
key, run one exchange that fails with an API error, then interrupt.  No
exchange ever succeeded, yet the single save of the run (the unconditional
final save at exit) writes a document whose history contains the failed
turn, because the session history list and the document history entry are
the same object. -/
theorem c2_failed_turn_persisted_by_final_save :
    (mainRun fsHist [] [.line "hi" .apiError, .interrupt]).map
        (fun out => savedHistories out.2.2) =
      some [some [⟨"user", "hi"⟩]] := by decide

/-- Claim C2, amended: a completed exchange with text appends exactly one
user entry then one model entry and saves the full document (including that
history) immediately; an exchange with no text appends only the user entry
and saves nothing; a failed (API error) exchange appends only the user
entry and saves nothing during that turn — but when the document history
entry aliases the session list, the entry is contained in any later save of
the document, including the unconditional final save at exit, not only in a
later successful exchange save. -/
theorem c2_exchange_persistence (h : Heap) (s : Chat) (input : String) :
    (∀ texts, String.join texts ≠ "" →
        heapRead (chatTurn h s input (.chunks texts)).heap
            (chatTurn h s input (.chunks texts)).chat.historyRef =
          heapRead h s.historyRef ++
            [⟨"user", input⟩, ⟨"model", String.join texts⟩] ∧
        saveDocs (chatTurn h s input (.chunks texts)).events =
          [configToSaved (chatTurn h s input (.chunks texts)).heap
            (chatTurn h s input (.chunks texts)).chat.config] ∧
        (configToSaved (chatTurn h s input (.chunks texts)).heap
            (chatTurn h s input (.chunks texts)).chat.config).history =
          some (heapRead h s.historyRef ++
            [⟨"user", input⟩, ⟨"model", String.join texts⟩])) ∧
    (∀ texts, String.join texts = "" →
        (chatTurn h s input (.chunks texts)).chat = s ∧
        heapRead (chatTurn h s input (.chunks texts)).heap s.historyRef =
          heapRead h s.historyRef ++ [⟨"user", input⟩] ∧
        saveDocs (chatTurn h s input (.chunks texts)).events = []) ∧
    ((chatTurn h s input .apiError).chat = s ∧
     heapRead (chatTurn h s input .apiError).heap s.historyRef =
        heapRead h s.historyRef ++ [⟨"user", input⟩] ∧
     saveDocs (chatTurn h s input .apiError).events = [] ∧
     (s.config.historyRef = some s.historyRef →
        (configToSaved (chatTurn h s input .apiError).heap
            (chatTurn h s input .apiError).chat.config).history =
          some (heapRead h s.historyRef ++ [⟨"user", input⟩]))) := by
  refine ⟨?_, ?_, ?_⟩
  · intro texts hne
    unfold chatTurn
    dsimp only
    rw [if_neg hne]
    refine ⟨?_, ?_, ?_⟩
    · simp [heapRead_push]
    · simp [saveDocs, save_config]
    · simp [configToSaved, heapRead_push]
  · intro texts he
    unfold chatTurn
    dsimp only
    rw [if_pos he]
    exact ⟨rfl, by simp [heapRead_push], by simp [saveDocs]⟩
  · refine ⟨rfl, by simp [chatTurn, heapRead_push], by simp [chatTurn, saveDocs], ?_⟩
    intro halias
    simp [chatTurn, configToSaved, halias, heapRead_push]

theorem c2_exchange_persistence_witness :
    heapRead (chatTurn initHist.1 initHist.2 "hi" (.chunks ["Hel", "lo"])).heap
        (chatTurn initHist.1 initHist.2 "hi" (.chunks ["Hel", "lo"])).chat.historyRef =
      heapRead initHist.1 initHist.2.historyRef ++
        [⟨"user", "hi"⟩, ⟨"model", String.join ["Hel", "lo"]⟩] ∧
    saveDocs (chatTurn initHist.1 initHist.2 "hi" (.chunks ["Hel", "lo"])).events =
      [configToSaved (chatTurn initHist.1 initHist.2 "hi" (.chunks ["Hel", "lo"])).heap
        (chatTurn initHist.1 initHist.2 "hi" (.chunks ["Hel", "lo"])).chat.config] ∧
    (configToSaved (chatTurn initHist.1 initHist.2 "hi" .apiError).heap
        (chatTurn initHist.1 initHist.2 "hi" .apiError).chat.config).history =
      some (heapRead initHist.1 initHist.2.historyRef ++ [⟨"user", "hi"⟩]) := by
  have t := c2_exchange_persistence initHist.1 initHist.2 "hi"
  have ta := t.1 ["Hel", "lo"] (by decide)
  have tb := t.2.2.2.2.2 (by rfl)
  exact ⟨ta.1, ta.2.1, tb⟩

/-! ## Claim C3 -/

/-- Claim C3 counterexample: the except clause catches only
`json.JSONDecodeError`, so a configuration file whose bytes do not decode
as UTF-8 makes `json.load` raise `UnicodeDecodeError`, and an unreadable
file makes `open` raise `PermissionError`; both exceptions propagate out of
`load_config`, refuting that no exception ever escapes the operation. -/
theorem c3_exception_escapes_load :
    load_config heapEmpty (.present .undecodable) =
      .error PyError.unicodeDecodeError ∧
    load_config heapEmpty (.present .unreadable) =
      .error PyError.permissionError :=
  ⟨rfl, rfl⟩

/-- Claim C3, amended: `load_config` returns an empty document for an
absent file; for a file with decodable content that fails JSON parsing it
catches the decode error, emits the corruption warning, and returns an
empty document, and that caught decode error never propagates; but the
no-exception guarantee does not hold for every state of the file: any
escaping outcome is an uncaught exception other than the decode error
(undecodable bytes raise `UnicodeDecodeError`, an unreadable file raises
`PermissionError`). -/
theorem c3_load_config_recovery (h : Heap) :
    load_config h .absent = .ok (h, {}, []) ∧
    (∀ content, openAndParse content = .error PyError.jsonDecodeError →
        load_config h (.present content) =
          .ok (h, {}, [Event.print corruptWarning])) ∧
    (∀ fs e, load_config h fs = .error e → e ≠ PyError.jsonDecodeError) := by
  refine ⟨rfl, ?_, ?_⟩
  · intro content herr
    cases content with
    | wellFormed d => simp [openAndParse] at herr
    | malformed => rfl
    | undecodable => simp [openAndParse] at herr
    | unreadable => simp [openAndParse] at herr
  · intro fs e hesc
    cases fs with
    | absent => simp [load_config] at hesc
    | present content =>
        cases content with
        | wellFormed d =>
            rcases hd : d.history with _ | l <;>
              simp [load_config, openAndParse, hd] at hesc
        | malformed => simp [load_config, openAndParse] at hesc
        | undecodable =>
            simp [load_config, openAndParse] at hesc
            simp [← hesc]
        | unreadable =>
            simp [load_config, openAndParse] at hesc
            simp [← hesc]

theorem c3_load_config_recovery_witness :
    load_config heapEmpty (.present .malformed) =
      .ok (heapEmpty, {}, [Event.print corruptWarning]) :=
  (c3_load_config_recovery heapEmpty).2.1 .malformed rfl

/-! ## Claim C4 -/

/-- Claim C4: for every session state, the model of the remote context
built by `_create_new_chat` (when a client is open) and the model of each
per-turn streaming request are both the lite model when search grounding is
enabled, regardless of the configured model, and are the configured model
when it is disabled. -/
theorem c4_effective_model_override (h : Heap) (s : Chat) (input : String)
    (tr : TurnResult) :
    ((_create_new_chat h s).map ChatSession.model =
        if s.client then some (if s.search_grounding then LITE_MODEL else s.model_name)
        else none) ∧
    requestModels (chatTurn h s input tr).events =
        [if s.search_grounding then LITE_MODEL else s.model_name] := by
  constructor
  · unfold _create_new_chat
    by_cases hc : s.client <;> simp [hc]
  · unfold chatTurn
    cases tr with
    | chunks texts =>
        by_cases he : String.join texts = "" <;>
          simp [he, requestModels, save_config]
    | apiError => simp [requestModels]
    | unexpected => simp [requestModels]

/-! ## Claim C5 -/

/-- Claim C5: `/temp` succeeds exactly on arguments that parse as a float
(including digit-group underscores and Unicode decimal digits) lying in the
inclusive range 0.0 to 1.0, updating the temperature in the session and the
document and rebuilding the context; any parsed value out of range reports
the range error, and any argument the parser rejects reports one of the two
temperature errors, in both cases leaving the session state unchanged (the
disjunction covers the `inf` and `nan` spellings, which the embedding folds
into parse failure while the program rejects them through the range
check). -/
theorem c5_temp_validation (h : Heap) (s : Chat) (input arg : String)
    (hp : pySplit1 input = ["/temp", arg]) :
    (∀ t, pyFloat arg = some t → 0 ≤ t → t ≤ 1 →
        (process_command h s input).chat.temperature = t ∧
        (process_command h s input).chat.config.temperature = some t ∧
        Event.rebuild ∈ (process_command h s input).events) ∧
    (∀ t, pyFloat arg = some t → ¬(0 ≤ t ∧ t ≤ 1) →
        (process_command h s input).chat = s ∧
        Event.print tempRangeMsg ∈ (process_command h s input).events) ∧
    (pyFloat arg = none →
        (process_command h s input).chat = s ∧
        (Event.print tempInvalidMsg ∈ (process_command h s input).events ∨
         Event.print tempRangeMsg ∈ (process_command h s input).events)) := by
  rw [process_command_parsed h s input "/temp" arg hp]
  rw [show pyLower "/temp" = "/temp" from rfl]
  rw [show process_command_core h s "/temp" arg = cmd_temp h s arg from rfl]
  unfold cmd_temp
  refine ⟨?_, ?_, ?_⟩
  · intro t hf h0 h1
    rw [hf]
    dsimp only
    rw [if_pos ⟨h0, h1⟩]
    simp
  · intro t hf hrange
    rw [hf]
    dsimp only
    rw [if_neg hrange]
    simp
  · intro hf
    rw [hf]
    exact ⟨rfl, Or.inl (by simp)⟩

theorem c5_temp_validation_witness :
    (process_command initFresh.1 initFresh.2 "/temp 0.0").chat.temperature = 0 ∧
    (process_command initFresh.1 initFresh.2 "/temp 0.0").chat.config.temperature =
      some 0 ∧
    (process_command initFresh.1 initFresh.2 "/temp 0.5_5").chat.temperature = 11/20 ∧
    (process_command initFresh.1 initFresh.2 "/temp 1.1").chat = initFresh.2 ∧
    (process_command initFresh.1 initFresh.2 "/temp abc").chat = initFresh.2 := by
  have t0 := c5_temp_validation initFresh.1 initFresh.2 "/temp 0.0" "0.0" (by decide)
  have h0 := t0.1 0 (by with_unfolding_all decide) (by with_unfolding_all decide)
      (by with_unfolding_all decide)
  have t5 := c5_temp_validation initFresh.1 initFresh.2 "/temp 0.5_5" "0.5_5" (by decide)
  have h5 := t5.1 (11/20) (by with_unfolding_all decide) (by with_unfolding_all decide)
      (by with_unfolding_all decide)
  have t1 := c5_temp_validation initFresh.1 initFresh.2 "/temp 1.1" "1.1" (by decide)
  have h1 := t1.2.1 (11/10) (by with_unfolding_all decide) (by with_unfolding_all decide)
  have t2 := c5_temp_validation initFresh.1 initFresh.2 "/temp abc" "abc" (by decide)
  have h2 := t2.2.2 (by with_unfolding_all decide)
  exact ⟨h0.1, h0.2.1, h5.1, h1.1, h2.1⟩

/-! ## Claim C6 -/

/-- Claim C6: the `/model` shorthands flash, pro, lite resolve
case-insensitively (via lowercasing) to their full gemini names, any other
argument is used verbatim, and the command succeeds (updating session and
document) exactly when the resolved name starts with the literal prefix
gemini, rejecting with no state change otherwise. -/
theorem c6_model_resolution (h : Heap) (s : Chat) (input arg : String)
    (hp : pySplit1 input = ["/model", arg]) :
    (pyLower arg = "flash" → resolveModel arg = "gemini-2.5-flash") ∧
    (pyLower arg = "pro" → resolveModel arg = "gemini-2.5-pro") ∧
    (pyLower arg = "lite" → resolveModel arg = "gemini-2.5-flash-lite") ∧
    (pyLower arg ≠ "flash" → pyLower arg ≠ "pro" → pyLower arg ≠ "lite" →
        resolveModel arg = arg) ∧
    (pyStartsWith (resolveModel arg) "gemini" = true →
        (process_command h s input).chat.model_name = resolveModel arg ∧
        (process_command h s input).chat.config.model = some (resolveModel arg) ∧
        (process_command h s input).exitLoop = false) ∧
    (pyStartsWith (resolveModel arg) "gemini" = false →
        (process_command h s input).chat = s ∧
        (process_command h s input).heap = h) := by
  rw [process_command_parsed h s input "/model" arg hp]
  rw [show pyLower "/model" = "/model" from rfl]
  rw [show process_command_core h s "/model" arg = cmd_model h s arg from rfl]
  refine ⟨?_, ?_, ?_, ?_, ?_, ?_⟩
  · intro he; unfold resolveModel model_map; rw [he]; rfl
  · intro he; unfold resolveModel model_map; rw [he]; rfl
  · intro he; unfold resolveModel model_map; rw [he]; rfl
  · intro h1 h2 h3; unfold resolveModel model_map
    rw [if_neg h1, if_neg h2, if_neg h3]
    rfl
  · intro hg
    unfold cmd_model
    by_cases ha : arg = ""
    · exact absurd hg (by subst ha; decide)
    · dsimp only
      simp [ha, hg]
  · intro hg
    unfold cmd_model
    by_cases ha : arg = ""
    · simp [ha]
    · dsimp only
      simp [ha, hg]

theorem c6_model_resolution_witness :
    resolveModel "pro" = "gemini-2.5-pro" ∧
    (process_command initFresh.1 initFresh.2 "/model pro").chat.model_name =
      resolveModel "pro" ∧
    (process_command initFresh.1 initFresh.2 "/model banana").chat = initFresh.2 := by
  have t := c6_model_resolution initFresh.1 initFresh.2 "/model pro" "pro" (by decide)
  have tb := c6_model_resolution initFresh.1 initFresh.2 "/model banana" "banana"
    (by decide)
  exact ⟨t.2.1 (by decide), (t.2.2.2.2.1 (by decide)).1, (tb.2.2.2.2.2 (by decide)).1⟩

/-! ## Claim C7 -/

/-- Claim C7: in the onboarding prompt loop each entered string is trimmed
of surrounding whitespace; when the trimmed string starts with AIza it is
stored verbatim as the credential and the configuration (with the new key)
is saved immediately; otherwise the invalid-format message is shown, the
stored credential is untouched, and the loop keeps prompting: a sequence of
invalid entries of any length leaves the configuration unchanged, performs
no save, and ends still prompting. -/
theorem c7_onboarding_gate (h : Heap) (c : Config) (i : String)
    (rest inputs : List String) :
    (pyStartsWith (pyStrip i) "AIza" = true →
        promptLoop h c (i :: rest) =
          (some (pyStrip i), { c with api_key := some (pyStrip i) },
            [Event.save (configToSaved h { c with api_key := some (pyStrip i) }),
             Event.print keyAcceptedMsg])) ∧
    (pyStartsWith (pyStrip i) "AIza" = false →
        promptLoop h c (i :: rest) =
          ((promptLoop h c rest).1, (promptLoop h c rest).2.1,
            Event.print invalidKeyMsg :: (promptLoop h c rest).2.2)) ∧
    ((∀ j ∈ inputs, pyStartsWith (pyStrip j) "AIza" = false) →
        promptLoop h c inputs =
          (none, c, inputs.map fun _ => Event.print invalidKeyMsg)) := by
  refine ⟨?_, ?_, promptLoop_all_invalid h c inputs⟩
  · intro hv
    unfold promptLoop
    dsimp only
    simp [hv, save_config]
  · intro hv
    conv_lhs => unfold promptLoop
    dsimp only
    simp [hv]

theorem c7_onboarding_gate_witness :
    pyStrip " AIzaKey " = "AIzaKey" ∧
    promptLoop heapEmpty {} [" AIzaKey "] =
      (some (pyStrip " AIzaKey "), { api_key := some (pyStrip " AIzaKey ") },
        [Event.save (configToSaved heapEmpty { api_key := some (pyStrip " AIzaKey ") }),
         Event.print keyAcceptedMsg]) ∧
    pyStrip "\x0cAIzaTwo" = "AIzaTwo" ∧
    promptLoop heapEmpty {} ["\x0cAIzaTwo"] =
      (some (pyStrip "\x0cAIzaTwo"), { api_key := some (pyStrip "\x0cAIzaTwo") },
        [Event.save (configToSaved heapEmpty { api_key := some (pyStrip "\x0cAIzaTwo") }),
         Event.print keyAcceptedMsg]) ∧
    promptLoop heapEmpty {} ["bad"] =
      (none, {}, ["bad"].map fun _ => Event.print invalidKeyMsg) := by
  have t := c7_onboarding_gate heapEmpty {} " AIzaKey " [] ["bad"]
  have t2 := c7_onboarding_gate heapEmpty {} "\x0cAIzaTwo" [] ["bad"]
  exact ⟨by decide, t.1 (by decide), by decide, t2.1 (by decide), t.2.2 (by decide)⟩

/-! ## Claim C8 -/

/-- Claim C8: a `/search` invocation whose argument is none of on, true,
off, false (after lowercasing) reports the usage error and leaves the
grounding flag unchanged (and mirrored unchanged into the document), yet
the remote context is still rebuilt, because the rebuild sits after the
validation branch unconditionally. -/
theorem c8_search_invalid_rebuild (h : Heap) (s : Chat) (input arg : String)
    (hp : pySplit1 input = ["/search", arg])
    (h1 : pyLower arg ≠ "on") (h2 : pyLower arg ≠ "true")
    (h3 : pyLower arg ≠ "off") (h4 : pyLower arg ≠ "false") :
    (process_command h s input).chat.search_grounding = s.search_grounding ∧
    (process_command h s input).chat.config.search_grounding =
      some s.search_grounding ∧
    Event.print searchUsageMsg ∈ (process_command h s input).events ∧
    Event.rebuild ∈ (process_command h s input).events ∧
    (process_command h s input).chat.chat_session =
      _create_new_chat h
        { s with config := { s.config with search_grounding := some s.search_grounding } } := by
  rw [process_command_parsed h s input "/search" arg hp]
  rw [show pyLower "/search" = "/search" from rfl]
  rw [show process_command_core h s "/search" arg = cmd_search h s arg from rfl]
  unfold cmd_search
  dsimp only
  rw [if_neg (by simp [h1, h2]), if_neg (by simp [h3, h4])]
  simp

theorem c8_search_invalid_rebuild_witness :
    (process_command initFresh.1 initFresh.2 "/search banana").chat.search_grounding =
      initFresh.2.search_grounding ∧
    Event.print searchUsageMsg ∈
      (process_command initFresh.1 initFresh.2 "/search banana").events ∧
    Event.rebuild ∈ (process_command initFresh.1 initFresh.2 "/search banana").events := by
  have t := c8_search_invalid_rebuild initFresh.1 initFresh.2 "/search banana" "banana"
    (by decide) (by decide) (by decide) (by decide) (by decide)
  exact ⟨t.1, t.2.2.1, t.2.2.2.1⟩

/-! ## Claim C9 -/

/-- Claim C9 counterexample: the loaded document contains a history field,
yet after `/history clear` (which installs two distinct fresh lists) a
failed exchange leaves the user turn only in the session list: the final
save at exit writes an empty history, while the in-memory session history
holds the turn.  The aliasing stated by the claim does not survive
`/history clear`. -/
theorem c9_clear_breaks_alias :
    (mainRun fsHist []
        [.line "/history clear" (.chunks []), .line "hi" .apiError, .interrupt]).map
        (fun out => (savedHistories out.2.2, heapRead out.1 out.2.1.historyRef)) =
      some ([some []], [⟨"user", "hi"⟩]) := by decide

/-- Claim C9, amended: the session history list and the document history
entry are the same object after construction whenever the loaded document
has a history field, and again after every successful exchange; while that
aliasing holds, a user turn appended by a failed exchange is contained in
the document a final save would write.  The aliasing is however broken by
`/history clear`, which binds the session and the document to two distinct
fresh empty lists, until a later successful exchange re-establishes it. -/
theorem c9_history_alias (h : Heap) (cfg : Config) (s : Chat) (input : String)
    (texts : List String) :
    (∀ r, cfg.historyRef = some r →
        (ComplexChat.mkInit h cfg).2.config.historyRef =
          some ((ComplexChat.mkInit h cfg).2.historyRef)) ∧
    (String.join texts ≠ "" →
        (chatTurn h s input (.chunks texts)).chat.config.historyRef =
          some ((chatTurn h s input (.chunks texts)).chat.historyRef)) ∧
    ((process_command_core h s "/history" "clear").chat.config.historyRef ≠
        some ((process_command_core h s "/history" "clear").chat.historyRef)) ∧
    (s.config.historyRef = some s.historyRef →
        (configToSaved (chatTurn h s input .apiError).heap
            (chatTurn h s input .apiError).chat.config).history =
          some (heapRead h s.historyRef ++ [⟨"user", input⟩])) := by
  refine ⟨?_, ?_, ?_, ?_⟩
  · intro r hr
    unfold ComplexChat.mkInit
    rw [hr]
  · intro hne
    unfold chatTurn
    dsimp only
    rw [if_neg hne]
  · rw [show process_command_core h s "/history" "clear" = cmd_history h s "clear" from rfl]
    unfold cmd_history
    dsimp only
    rw [if_pos (show pyLower "clear" = "clear" from rfl)]
    simp [heapAlloc]
  · intro halias
    simp [chatTurn, configToSaved, halias, heapRead_push]

theorem c9_history_alias_witness :
    (ComplexChat.mkInit heapEmpty cfgWithHist).2.config.historyRef =
      some ((ComplexChat.mkInit heapEmpty cfgWithHist).2.historyRef) ∧
    (configToSaved (chatTurn initHist.1 initHist.2 "hi" .apiError).heap
        (chatTurn initHist.1 initHist.2 "hi" .apiError).chat.config).history =
      some (heapRead initHist.1 initHist.2.historyRef ++ [⟨"user", "hi"⟩]) := by
  have t1 := (c9_history_alias heapEmpty cfgWithHist initHist.2 "hi" []).1 0 (by rfl)
  have t2 := (c9_history_alias initHist.1 cfgWithHist initHist.2 "hi" []).2.2.2 (by rfl)
  exact ⟨t1, t2⟩

/-! ## Claim C10 -/

/-- Claim C10: after each successful settings command the configuration
document field corresponding to the command equals the new session value
(for `/history clear` the two history lists are equal in value though
distinct objects), so any later save of the document carries every settings
change made so far. -/
theorem c10_config_mirrors_session (h : Heap) (s : Chat) (input : String) :
    (∀ arg, pySplit1 input = ["/model", arg] →
        pyStartsWith (resolveModel arg) "gemini" = true →
        (process_command h s input).chat.config.model =
          some ((process_command h s input).chat.model_name)) ∧
    (∀ arg t, pySplit1 input = ["/temp", arg] → pyFloat arg = some t → 0 ≤ t → t ≤ 1 →
        (process_command h s input).chat.config.temperature =
          some ((process_command h s input).chat.temperature)) ∧
    (∀ arg, pySplit1 input = ["/persona", arg] → arg ≠ "" →
        (process_command h s input).chat.config.system_instruction =
          some ((process_command h s input).chat.system_instruction)) ∧
    (∀ arg, pySplit1 input = ["/search", arg] →
        (process_command h s input).chat.config.search_grounding =
          some ((process_command h s input).chat.search_grounding)) ∧
    (∀ arg, pySplit1 input = ["/history", arg] → pyLower arg = "clear" →
        ∃ a, (process_command h s input).chat.config.historyRef = some a ∧
          heapRead (process_command h s input).heap a =
            heapRead (process_command h s input).heap
              ((process_command h s input).chat.historyRef)) := by
  refine ⟨?_, ?_, ?_, ?_, ?_⟩
  · intro arg hp hg
    rw [process_command_parsed h s input "/model" arg hp,
        show pyLower "/model" = "/model" from rfl,
        show process_command_core h s "/model" arg = cmd_model h s arg from rfl]
    unfold cmd_model
    by_cases ha : arg = ""
    · exact absurd hg (by subst ha; decide)
    · dsimp only
      simp [ha, hg]
  · intro arg t hp hf h0 h1
    rw [process_command_parsed h s input "/temp" arg hp,
        show pyLower "/temp" = "/temp" from rfl,
        show process_command_core h s "/temp" arg = cmd_temp h s arg from rfl]
    unfold cmd_temp
    rw [hf]
    dsimp only
    rw [if_pos ⟨h0, h1⟩]
  · intro arg hp hne
    rw [process_command_parsed h s input "/persona" arg hp,
        show pyLower "/persona" = "/persona" from rfl,
        show process_command_core h s "/persona" arg = cmd_persona h s arg from rfl]
    unfold cmd_persona
    dsimp only
    simp [hne]
  · intro arg hp
    rw [process_command_parsed h s input "/search" arg hp,
        show pyLower "/search" = "/search" from rfl,
        show process_command_core h s "/search" arg = cmd_search h s arg from rfl]
    unfold cmd_search
    dsimp only
  · intro arg hp hc
    rw [process_command_parsed h s input "/history" arg hp,
        show pyLower "/history" = "/history" from rfl,
        show process_command_core h s "/history" arg = cmd_history h s arg from rfl]
    unfold cmd_history
    dsimp only
    rw [if_pos hc]
    refine ⟨_, rfl, ?_⟩
    simp [heapAlloc, heapRead]

theorem c10_config_mirrors_session_witness :
    (process_command initFresh.1 initFresh.2 "/model pro").chat.config.model =
      some ((process_command initFresh.1 initFresh.2 "/model pro").chat.model_name) ∧
    (process_command initFresh.1 initFresh.2 "/search on").chat.config.search_grounding =
      some ((process_command initFresh.1 initFresh.2 "/search on").chat.search_grounding) ∧
    (∃ a,
      (process_command initFresh.1 initFresh.2 "/history clear").chat.config.historyRef =
        some a ∧
      heapRead (process_command initFresh.1 initFresh.2 "/history clear").heap a =
        heapRead (process_command initFresh.1 initFresh.2 "/history clear").heap
          ((process_command initFresh.1 initFresh.2 "/history clear").chat.historyRef)) := by
  have t := c10_config_mirrors_session initFresh.1 initFresh.2 "/model pro"
  have t2 := c10_config_mirrors_session initFresh.1 initFresh.2 "/search on"
  have t3 := c10_config_mirrors_session initFresh.1 initFresh.2 "/history clear"
  exact ⟨t.1 "pro" (by decide) (by decide),
         t2.2.2.2.1 "on" (by decide),
         t3.2.2.2.2 "clear" (by decide) (by decide)⟩

end CompLex
